import Mathlib

/-!
Fresh House Discord MCP server: a shallow embedding of `src/server.js`.

The server is an Express application with three authenticated routes
(`GET /sse`, `GET /tools`, `POST /execute`) and five tool handlers that talk to
a Discord client and a Supabase client.  The two clients are external
collaborators: they are modelled as records of response functions (test
doubles), and every invocation of one of them is appended to a call log, so
that statements such as "performs no connector call" or "calls send exactly
once" become statements about that log.

JavaScript values that travel through the request body are modelled by
`JsVal`.  A JavaScript string is a Lean string, standing for its UTF-16
encoding: the string operations of the server (equality, concatenation, the
test for the ASCII start `Bearer ` and the removal of those seven units) give
the same answer on the encoding.  A string with an unpaired surrogate has no
counterpart here.
-/

namespace FreshHouse

/-! ## JavaScript values -/

/-- A JavaScript number, identified by the string that
`Number.prototype.toString` gives for it (`10`, `-1.5`, `1e+21`).  The server
does no arithmetic on a number: it converts it to a string, tests it for
truthiness or passes it on.  `0` and `-0`, which none of these tell apart,
share the string `0`. -/
structure JsNum where
  shown : String

/-- The number of a count (an array length or a collection size, below
`2 ^ 32`): such a number is written in decimal. -/
def JsNum.ofNat (n : Nat) : JsNum := ⟨toString n⟩

/-- A JavaScript value as it can come out of `express.json()` (a parsed JSON
document), plus `undefined` for an absent property.  Objects list their own
properties in enumeration order. -/
inductive JsVal where
  | undefined : JsVal
  | null : JsVal
  | bool (b : Bool) : JsVal
  | num (n : JsNum) : JsVal
  | str (s : String) : JsVal
  | arr (xs : List JsVal) : JsVal
  | obj (props : List (String × JsVal)) : JsVal

namespace JsVal

/-- Own-property lookup in a property list. -/
def lookup (k : String) : List (String × JsVal) → JsVal
  | [] => undefined
  | (k', v) :: rest => if k' = k then v else lookup k rest

/-- Property read `v.k` for the property names the server reads
(`tool_name`, `parameters`, `channel_id`, ...).  None of them is an inherited
property of `Object.prototype`, `Array.prototype` or a primitive wrapper, so
the read yields the own property of an object and `undefined` otherwise.  The
caller has already excluded `undefined` and `null`, on which a read throws. -/
def get (v : JsVal) (k : String) : JsVal :=
  match v with
  | obj props => lookup k props
  | _ => undefined

/-- Is the value `undefined` or `null` (the two values that cannot be
destructured)? -/
def isNullish : JsVal → Bool
  | undefined => true
  | null => true
  | _ => false

/-- JavaScript truthiness, as used by `if (embed)`. -/
def truthy : JsVal → Bool
  | undefined => false
  | null => false
  | bool b => b
  | num n => n.shown != "0" && n.shown != "NaN"
  | str s => s != ""
  | arr _ => true
  | obj _ => true

/-- The `TypeError` message of V8 for `const { k, ... } = src` when the value
of `src` is `undefined` or `null`; `k` is the first property of the pattern
and `src` the source text of the right-hand side. -/
def destructureError (k src : String) (v : JsVal) : String :=
  "Cannot destructure property '" ++ k ++ "' of '" ++ src ++ "' as it is " ++
    (match v with
     | null => "null"
     | _ => "undefined") ++ "."

/-- The check that object destructuring performs on its right-hand side. -/
def destructure (k src : String) (v : JsVal) : Except String Unit :=
  if v.isNullish then .error (destructureError k src v) else .ok ()

mutual
/-- String conversion `ToString(v)` as performed by a template literal
`${v}`.  An object parsed from JSON has no callable own `toString`; if it has
an own property of that name the conversion throws, otherwise the inherited
`Object.prototype.toString` answers `[object Object]`. -/
def toStr : JsVal → Except String String
  | undefined => .ok "undefined"
  | null => .ok "null"
  | bool b => .ok (if b then "true" else "false")
  | num n => .ok n.shown
  | str s => .ok s
  | arr xs => joinStr xs
  | obj props =>
      if props.any (fun p => p.1 == "toString") then
        .error "Cannot convert object to primitive value"
      else .ok "[object Object]"
/-- The `Array.prototype.join` with separator `,` behind the string conversion
of an array: `undefined` and `null` elements contribute the empty string. -/
def joinStr : List JsVal → Except String String
  | [] => .ok ""
  | x :: rest =>
      match (match x with
             | undefined => Except.ok ""
             | null => Except.ok ""
             | y => toStr y) with
      | .error e => .error e
      | .ok a =>
          match rest with
          | [] => .ok a
          | _ :: _ =>
              match joinStr rest with
              | .error e => .error e
              | .ok b => .ok (a ++ "," ++ b)
end

end JsVal

open JsVal

/-- The `String.prototype.startsWith` method. -/
def jsStartsWith (s p : String) : Bool := p.data.isPrefixOf s.data

/-- The `String.prototype.substring` method with one argument. -/
def jsSubstring (s : String) (start : Nat) : String := ⟨s.data.drop start⟩

/-! ## HTTP responses -/

/-- One response sent through `res.status(..).json(..)` or `res.json(..)`. -/
structure Response where
  status : Nat
  body : JsVal

/-! ## Authentication middleware (`authenticateRequest`, lines 39-55) -/

/-- What the middleware did: the responses it sent and whether it called
`next()`. -/
structure AuthResult where
  responses : List Response
  nextCalled : Bool

/-- Body of the 401 sent for an absent or malformed header. -/
def missingHeaderBody : JsVal :=
  obj [("error", str "Missing or invalid authorization header"),
       ("expected", str "Bearer <token>")]

/-- Body of the 401 sent for a wrong token. -/
def invalidTokenBody : JsVal := obj [("error", str "Invalid token")]

/-- The middleware.  `authHeader` is `req.headers.authorization`: `none` when
the header is absent.  `!authHeader` also holds for the empty string. -/
def authenticateRequest (AUTH_TOKEN : String) (authHeader : Option String) : AuthResult :=
  match authHeader with
  | none => ⟨[⟨401, missingHeaderBody⟩], false⟩
  | some h =>
      if h = "" || !jsStartsWith h "Bearer " then
        ⟨[⟨401, missingHeaderBody⟩], false⟩
      else
        let token := jsSubstring h 7
        if token ≠ AUTH_TOKEN then ⟨[⟨401, invalidTokenBody⟩], false⟩
        else ⟨[], true⟩

/-! ## Connectors (external collaborators) -/

/-- A `Date` object together with what its `toISOString()` returns. -/
structure JsDate where
  ms : Int
  iso : String

/-- The object built by a successful `new EmbedBuilder(embed)`. -/
structure Embed where
  data : JsVal

/-- The object literal `{ ...data, synced_at: new Date().toISOString() }`
handed to the insert, recorded by its two ingredients: the value spread and
the timestamp. -/
structure SyncRow where
  data : JsVal
  synced_at : String

/-- Argument of `channel.send`: the bare message, or an options object
`{ content, embeds }`. -/
inductive SendArg where
  | text (message : JsVal) : SendArg
  | options (content : JsVal) (embeds : List Embed) : SendArg

/-- The message object a successful `channel.send` resolves to. -/
structure SentMessage where
  id : String
  createdAt : JsDate

/-- Author of a fetched message. -/
structure Author where
  id : String
  username : String
  displayName : String

/-- One fetched message; `attachments` is `msg.attachments.size`. -/
structure Message where
  id : String
  content : String
  author : Author
  createdAt : JsDate
  attachments : Nat

/-- A channel object.  `send` and `messagesFetch` say how the test double
answers; `.error m` is a rejection with an error of message `m`. -/
structure Channel where
  id : String
  name : String
  type : Int
  position : JsVal
  send : SendArg → Except String SentMessage
  messagesFetch : JsVal → Except String (List Message)

/-- A role object. -/
structure Role where
  id : String

/-- A guild member; `rolesAdd` and `rolesRemove` answer `member.roles.add`
and `member.roles.remove`. -/
structure Member where
  id : String
  rolesAdd : Role → Except String Unit
  rolesRemove : Role → Except String Unit

/-- A guild: its cached channels and the answers of `members.fetch` and
`roles.fetch` (`none` for a `null`/`undefined` result). -/
structure Guild where
  id : String
  name : String
  channels : List Channel
  membersFetch : JsVal → Except String (Option Member)
  rolesFetch : JsVal → Except String (Option Role)

/-- The discord.js library as the handlers see it: the client (readiness,
first cached guild, channel fetch) and the `EmbedBuilder` constructor, which
throws on data it cannot accept (`.error m` for an error of message `m`). -/
structure Discord where
  isReady : Bool
  guildsFirst : Option Guild
  channelsFetch : JsVal → Except String (Option Channel)
  embedBuilder : JsVal → Except String Embed

/-- The Supabase client: `insert table row` answers
`supabase.from(table).insert(row)` with the `error` member of the result
(`none` for no error, `some m` for an error of message `m`). -/
structure Supabase where
  insert : String → SyncRow → Except String (Option String)

/-- Everything outside the server that a request can observe: the Discord
client, the Supabase client (`none` when the module variable `supabase` was
left `undefined`) and the clock read by `new Date()`. -/
structure Env where
  discord : Discord
  supabase : Option Supabase
  now : JsDate

/-- One invocation of a connector. -/
inductive Call where
  | isReady : Call
  | guildsFirst : Call
  | channelsFetch (channel_id : JsVal) : Call
  | channelSend (channel : String) (arg : SendArg) : Call
  | messagesFetch (channel : String) (limit : JsVal) : Call
  | membersFetch (user_id : JsVal) : Call
  | rolesFetch (role_id : JsVal) : Call
  | rolesAdd (memberId roleId : String) : Call
  | rolesRemove (memberId roleId : String) : Call
  | supabaseInsert (table : String) (row : SyncRow) : Call

namespace Call

/-- Reading the readiness flag or the guild cache: no request leaves the
process. -/
def isRead : Call → Bool
  | isReady => true
  | guildsFirst => true
  | _ => false

/-- Is the call a `channel.send`? -/
def isSend : Call → Bool
  | channelSend _ _ => true
  | _ => false

/-- Is the call a `member.roles.add`? -/
def isRoleAdd : Call → Bool
  | rolesAdd _ _ => true
  | _ => false

/-- Is the call a `member.roles.remove`? -/
def isRoleRemove : Call → Bool
  | rolesRemove _ _ => true
  | _ => false

/-- Is the call a Supabase insert? -/
def isInsert : Call → Bool
  | supabaseInsert _ _ => true
  | _ => false

end Call

/-- What a tool handler did: the connector calls it made, in order, and how
it finished (`.ok payload` for a return, `.error m` for a thrown error of
message `m`). -/
structure Outcome where
  calls : List Call
  result : Except String JsVal

/-! ## Tool handlers (lines 223-362) -/

/-- The object returned by `sendDiscordMessage`. -/
def sentPayload (channel_id message : JsVal) (sentMessage : SentMessage) : JsVal :=
  obj [("message_id", str sentMessage.id),
       ("channel_id", channel_id),
       ("content", message),
       ("timestamp", str sentMessage.createdAt.iso),
       ("status", str "sent")]

/-- The `sendDiscordMessage` handler.  With a truthy `embed` the embed object
is built after the channel fetch and before the send. -/
def sendDiscordMessage (discord : Discord) (params : JsVal) : Outcome :=
  match destructure "channel_id" "params" params with
  | .error e => ⟨[], .error e⟩
  | .ok _ =>
    let channel_id := params.get "channel_id"
    let message := params.get "message"
    let embed := params.get "embed"
    if !discord.isReady then ⟨[.isReady], .error "Discord bot is not connected"⟩
    else
      match discord.channelsFetch channel_id with
      | .error e => ⟨[.isReady, .channelsFetch channel_id], .error e⟩
      | .ok none =>
          match toStr channel_id with
          | .error e => ⟨[.isReady, .channelsFetch channel_id], .error e⟩
          | .ok c => ⟨[.isReady, .channelsFetch channel_id],
              .error ("Channel " ++ c ++ " not found")⟩
      | .ok (some channel) =>
          if embed.truthy then
            match discord.embedBuilder embed with
            | .error e => ⟨[.isReady, .channelsFetch channel_id], .error e⟩
            | .ok embedObj =>
                let arg : SendArg := .options message [embedObj]
                match channel.send arg with
                | .error e =>
                    ⟨[.isReady, .channelsFetch channel_id, .channelSend channel.id arg],
                     .error e⟩
                | .ok sentMessage =>
                    ⟨[.isReady, .channelsFetch channel_id, .channelSend channel.id arg],
                     .ok (sentPayload channel_id message sentMessage)⟩
          else
            match channel.send (.text message) with
            | .error e =>
                ⟨[.isReady, .channelsFetch channel_id,
                  .channelSend channel.id (.text message)], .error e⟩
            | .ok sentMessage =>
                ⟨[.isReady, .channelsFetch channel_id,
                  .channelSend channel.id (.text message)],
                 .ok (sentPayload channel_id message sentMessage)⟩

/-- The object built for one text channel by `getDiscordChannels`. -/
def channelEntry (channel : Channel) : JsVal :=
  obj [("id", str channel.id), ("name", str channel.name),
       ("type", str "text"), ("position", channel.position)]

/-- The `getDiscordChannels` handler; it never looks at `params`. -/
def getDiscordChannels (discord : Discord) (_params : JsVal) : Outcome :=
  if !discord.isReady then ⟨[.isReady], .error "Discord bot is not connected"⟩
  else
    match discord.guildsFirst with
    | none => ⟨[.isReady, .guildsFirst], .error "No Discord server found"⟩
    | some guild =>
        let channels := (guild.channels.filter (fun channel => channel.type == 0)).map
          channelEntry
        ⟨[.isReady, .guildsFirst],
         .ok (obj [("guild_id", str guild.id),
                   ("guild_name", str guild.name),
                   ("channels", arr channels),
                   ("count", num (JsNum.ofNat channels.length))])⟩

/-- The object built for one message by `getDiscordMessages`. -/
def messageEntry (msg : Message) : JsVal :=
  obj [("id", str msg.id), ("content", str msg.content),
       ("author", obj [("id", str msg.author.id),
                       ("username", str msg.author.username),
                       ("display_name", str msg.author.displayName)]),
       ("timestamp", str msg.createdAt.iso),
       ("attachments", num (JsNum.ofNat msg.attachments))]

/-- The `getDiscordMessages` handler; `limit` defaults to 10 when the
property is `undefined`. -/
def getDiscordMessages (discord : Discord) (params : JsVal) : Outcome :=
  match destructure "channel_id" "params" params with
  | .error e => ⟨[], .error e⟩
  | .ok _ =>
    let channel_id := params.get "channel_id"
    let limit := match params.get "limit" with
      | undefined => num ⟨"10"⟩
      | v => v
    if !discord.isReady then ⟨[.isReady], .error "Discord bot is not connected"⟩
    else
      match discord.channelsFetch channel_id with
      | .error e => ⟨[.isReady, .channelsFetch channel_id], .error e⟩
      | .ok none =>
          match toStr channel_id with
          | .error e => ⟨[.isReady, .channelsFetch channel_id], .error e⟩
          | .ok c => ⟨[.isReady, .channelsFetch channel_id],
              .error ("Channel " ++ c ++ " not found")⟩
      | .ok (some channel) =>
          match channel.messagesFetch limit with
          | .error e =>
              ⟨[.isReady, .channelsFetch channel_id, .messagesFetch channel.id limit],
               .error e⟩
          | .ok messages =>
              let messageArray := messages.map messageEntry
              ⟨[.isReady, .channelsFetch channel_id, .messagesFetch channel.id limit],
               .ok (obj [("channel_id", channel_id),
                         ("messages", arr messageArray),
                         ("count", num (JsNum.ofNat messageArray.length))])⟩

/-- The `manageDiscordRoles` handler.  The guild is read from the cache
without a check, so `guild.members` throws when there is none; the role is
fetched before the member is tested. -/
def manageDiscordRoles (discord : Discord) (params : JsVal) : Outcome :=
  match destructure "user_id" "params" params with
  | .error e => ⟨[], .error e⟩
  | .ok _ =>
    let user_id := params.get "user_id"
    let role_id := params.get "role_id"
    let action := params.get "action"
    if !discord.isReady then ⟨[.isReady], .error "Discord bot is not connected"⟩
    else
      match discord.guildsFirst with
      | none => ⟨[.isReady, .guildsFirst],
          .error "Cannot read properties of undefined (reading 'members')"⟩
      | some guild =>
        match guild.membersFetch user_id with
        | .error e => ⟨[.isReady, .guildsFirst, .membersFetch user_id], .error e⟩
        | .ok member =>
          let fetched : List Call :=
            [.isReady, .guildsFirst, .membersFetch user_id, .rolesFetch role_id]
          match guild.rolesFetch role_id with
          | .error e => ⟨fetched, .error e⟩
          | .ok role =>
            match member with
            | none =>
                match toStr user_id with
                | .error e => ⟨fetched, .error e⟩
                | .ok u => ⟨fetched, .error ("User " ++ u ++ " not found")⟩
            | some member =>
              match role with
              | none =>
                  match toStr role_id with
                  | .error e => ⟨fetched, .error e⟩
                  | .ok r => ⟨fetched, .error ("Role " ++ r ++ " not found")⟩
              | some role =>
                let payload : JsVal :=
                  obj [("user_id", user_id), ("role_id", role_id),
                       ("action", action), ("status", str "completed")]
                match action with
                | str a =>
                    if a = "add" then
                      match member.rolesAdd role with
                      | .error e => ⟨fetched ++ [.rolesAdd member.id role.id], .error e⟩
                      | .ok _ => ⟨fetched ++ [.rolesAdd member.id role.id], .ok payload⟩
                    else if a = "remove" then
                      match member.rolesRemove role with
                      | .error e => ⟨fetched ++ [.rolesRemove member.id role.id], .error e⟩
                      | .ok _ => ⟨fetched ++ [.rolesRemove member.id role.id], .ok payload⟩
                    else ⟨fetched, .ok payload⟩
                | _ => ⟨fetched, .ok payload⟩

/-- The template literal that names the target table of a sync. -/
def tableName (client_id data_type : JsVal) : Except String String :=
  match toStr client_id with
  | .error e => .error e
  | .ok c =>
      match toStr data_type with
      | .error e => .error e
      | .ok d => .ok (c ++ "_discord_" ++ d)

/-- The row handed to the insert: the spread of `data` with `synced_at`. -/
def syncRow (data : JsVal) (now : JsDate) : SyncRow :=
  ⟨data, now.iso⟩

/-- The `syncToSupabase` handler.  The configuration check comes first,
before `params` is destructured. -/
def syncToSupabase (supabase : Option Supabase) (now : JsDate) (params : JsVal) : Outcome :=
  match supabase with
  | none => ⟨[], .error "Supabase not configured"⟩
  | some client =>
    match destructure "data_type" "params" params with
    | .error e => ⟨[], .error e⟩
    | .ok _ =>
      let data_type := params.get "data_type"
      let data := params.get "data"
      let client_id := params.get "client_id"
      match tableName client_id data_type with
      | .error e => ⟨[], .error e⟩
      | .ok table_name =>
        let row := syncRow data now
        match client.insert table_name row with
        | .error e => ⟨[.supabaseInsert table_name row], .error e⟩
        | .ok (some m) =>
            ⟨[.supabaseInsert table_name row], .error ("Supabase sync failed: " ++ m)⟩
        | .ok none =>
            ⟨[.supabaseInsert table_name row],
             .ok (obj [("synced", bool true), ("table", str table_name),
                       ("client_id", client_id), ("data_type", data_type)])⟩

/-! ## Tool listings -/

/-- The `tools` array of the `tools_available` frame (lines 83-89). -/
def sseToolNames : List String :=
  ["send_discord_message", "get_discord_channels", "get_discord_messages",
   "manage_discord_roles", "sync_to_supabase"]

/-- One entry of a descriptor's `inputSchema.properties`. -/
structure PropertySchema where
  name : String
  type : String
  description : Option String
  enumValues : Option (List String)

/-- One tool descriptor of `GET /tools`; `required` is `none` when the
schema has no `required` member. -/
structure ToolDescriptor where
  name : String
  description : String
  properties : List PropertySchema
  required : Option (List String)

/-- The `tools` constant of `GET /tools` (lines 115-177). -/
def tools : List ToolDescriptor :=
  [ { name := "send_discord_message"
      description := "Send a message to a Discord channel"
      properties :=
        [⟨"channel_id", "string", some "Discord channel ID", none⟩,
         ⟨"message", "string", some "Message content to send", none⟩,
         ⟨"embed", "object", some "Optional embed object", none⟩]
      required := some ["channel_id", "message"] },
    { name := "get_discord_channels"
      description := "List available Discord channels"
      properties := [⟨"guild_id", "string", some "Discord server ID (optional)", none⟩]
      required := none },
    { name := "get_discord_messages"
      description := "Get recent messages from a Discord channel"
      properties :=
        [⟨"channel_id", "string", some "Discord channel ID", none⟩,
         ⟨"limit", "number", some "Number of messages (default: 10)", none⟩]
      required := some ["channel_id"] },
    { name := "manage_discord_roles"
      description := "Add or remove roles from Discord users"
      properties :=
        [⟨"user_id", "string", some "Discord user ID", none⟩,
         ⟨"role_id", "string", some "Discord role ID", none⟩,
         ⟨"action", "string", none, some ["add", "remove"]⟩]
      required := some ["user_id", "role_id", "action"] },
    { name := "sync_to_supabase"
      description := "Sync Discord data to Supabase database"
      properties :=
        [⟨"data_type", "string", none, some ["user", "message", "event"]⟩,
         ⟨"data", "object", some "Data to sync", none⟩,
         ⟨"client_id", "string", some "Client ID for partitioning", none⟩]
      required := some ["data_type", "data", "client_id"] } ]

/-- The keys a descriptor lists as required. -/
def requiredKeys (name : String) : List String :=
  match tools.find? (fun d => d.name == name) with
  | some d => d.required.getD []
  | none => []

/-- Does the parameters value lack one of the keys (the key reads as
`undefined`)? -/
def lacksKey (parameters : JsVal) (keys : List String) : Bool :=
  keys.any (fun k => match parameters.get k with
    | undefined => true
    | _ => false)

/-! ## The execute route (lines 183-217) -/

/-- The five handler functions the switch can select. -/
inductive Handler where
  | sendDiscordMessage : Handler
  | getDiscordChannels : Handler
  | getDiscordMessages : Handler
  | manageDiscordRoles : Handler
  | syncToSupabase : Handler

/-- The `switch (tool_name)`: a case is taken when `tool_name` is strictly
equal to its string; `none` is the `default` branch. -/
def selectHandler (tool_name : JsVal) : Option Handler :=
  match tool_name with
  | str s =>
      if s = "send_discord_message" then some .sendDiscordMessage
      else if s = "get_discord_channels" then some .getDiscordChannels
      else if s = "get_discord_messages" then some .getDiscordMessages
      else if s = "manage_discord_roles" then some .manageDiscordRoles
      else if s = "sync_to_supabase" then some .syncToSupabase
      else none
  | _ => none

/-- Calling the selected handler with the request's parameters. -/
def Handler.run (env : Env) (h : Handler) (parameters : JsVal) : Outcome :=
  match h with
  | .sendDiscordMessage => FreshHouse.sendDiscordMessage env.discord parameters
  | .getDiscordChannels => FreshHouse.getDiscordChannels env.discord parameters
  | .getDiscordMessages => FreshHouse.getDiscordMessages env.discord parameters
  | .manageDiscordRoles => FreshHouse.manageDiscordRoles env.discord parameters
  | .syncToSupabase => FreshHouse.syncToSupabase env.supabase env.now parameters

/-- What a route did: connector calls and responses sent, both in order. -/
structure RouteResult where
  calls : List Call
  responses : List Response

/-- The success envelope `res.json({ success: true, result })`. -/
def successEnvelope (result : JsVal) : Response :=
  ⟨200, obj [("success", bool true), ("result", result)]⟩

/-- The failure envelope of the `catch` block. -/
def failureEnvelope (message : String) : Response :=
  ⟨500, obj [("success", bool false), ("error", str message)]⟩

/-- The body of the `try` block as a handler outcome: destructuring of
`req.body`, the log line (whose template literal converts `tool_name` to a
string), the switch. -/
def executeTry (env : Env) (body : JsVal) : Outcome :=
  match destructure "tool_name" "req.body" body with
  | .error e => ⟨[], .error e⟩
  | .ok _ =>
    let tool_name := body.get "tool_name"
    let parameters := body.get "parameters"
    match toStr tool_name with
    | .error e => ⟨[], .error e⟩
    | .ok shown =>
      match selectHandler tool_name with
      | some h => h.run env parameters
      | none => ⟨[], .error ("Unknown tool: " ++ shown)⟩

/-- The `/execute` handler: `try` then envelope. -/
def execute (env : Env) (body : JsVal) : RouteResult :=
  match executeTry env body with
  | ⟨calls, .ok result⟩ => ⟨calls, [successEnvelope result]⟩
  | ⟨calls, .error m⟩ => ⟨calls, [failureEnvelope m]⟩

/-- The route `POST /execute` with its middleware. -/
def postExecute (AUTH_TOKEN : String) (env : Env) (authHeader : Option String)
    (body : JsVal) : RouteResult :=
  let auth := authenticateRequest AUTH_TOKEN authHeader
  if auth.nextCalled then
    let r := execute env body
    ⟨r.calls, auth.responses ++ r.responses⟩
  else ⟨[], auth.responses⟩

/-! ## The event stream (lines 60-107) -/

/-- The `connection` frame. -/
def connectionFrame (now : JsDate) : JsVal :=
  obj [("type", str "connection"), ("timestamp", str now.iso),
       ("message", str "Fresh House Discord MCP Server connected"),
       ("status", str "ready")]

/-- The `tools_available` frame. -/
def toolsFrame (now : JsDate) : JsVal :=
  obj [("type", str "tools_available"),
       ("tools", arr (sseToolNames.map str)),
       ("timestamp", str now.iso)]

/-- The `heartbeat` frame; `ready` is `discord.isReady()` at the tick. -/
def heartbeatFrame (now : JsDate) (ready : Bool) : JsVal :=
  obj [("type", str "heartbeat"), ("timestamp", str now.iso),
       ("discord_status", str (if ready then "connected" else "disconnected"))]

/-- One session of `/sse`: whether the interval timer is armed, and the frame
objects written so far (each is sent as `data: <JSON>` and a blank line). -/
structure Session where
  heartbeat : Bool
  written : List JsVal

/-- What happens to an open session: the 30-second timer comes due (with the
clock and the readiness at that instant), or the request emits `close`. -/
inductive SseEvent where
  | tick (now : JsDate) (ready : Bool) : SseEvent
  | close : SseEvent

/-- The route handler proper: the two initial frames, then `setInterval`.
`t1` and `t2` are the two clock readings. -/
def sseOpen (t1 t2 : JsDate) : Session :=
  ⟨true, [connectionFrame t1, toolsFrame t2]⟩

/-- One event.  The interval callback runs only while the timer is armed;
`close` clears the timer. -/
def sseStep (s : Session) : SseEvent → Session
  | .tick now ready =>
      if s.heartbeat then ⟨true, s.written ++ [heartbeatFrame now ready]⟩ else s
  | .close => ⟨false, s.written⟩

/-- A sequence of events. -/
def sseRun (s : Session) (events : List SseEvent) : Session :=
  events.foldl sseStep s

/-- The route `GET /sse` with its middleware: the 401 of the middleware and
no session, or a session opened and run through the events. -/
def getSse (AUTH_TOKEN : String) (authHeader : Option String) (t1 t2 : JsDate)
    (events : List SseEvent) : List Response × Option Session :=
  let auth := authenticateRequest AUTH_TOKEN authHeader
  if auth.nextCalled then (auth.responses, some (sseRun (sseOpen t1 t2) events))
  else (auth.responses, none)

/-- One heartbeat frame per tick of a list of events, in order, each with the
clock and readiness of its tick. -/
def heartbeatsOf (events : List SseEvent) : List JsVal :=
  events.filterMap (fun e => match e with
    | .tick now ready => some (heartbeatFrame now ready)
    | .close => none)

/-- Is the event a `close`? -/
def SseEvent.isClose : SseEvent → Bool
  | .close => true
  | _ => false

/-- The events up to, and not including, the first `close`. -/
def beforeClose (events : List SseEvent) : List SseEvent :=
  events.takeWhile (fun e => !e.isClose)

/-! ## Abbreviations used in statements -/

/-- The calls every run of the role handler makes once the client is ready
and a guild is cached. -/
def roleFetches (params : JsVal) : List Call :=
  [.isReady, .guildsFirst, .membersFetch (params.get "user_id"),
   .rolesFetch (params.get "role_id")]

/-- The payload the role handler returns. -/
def rolePayload (params : JsVal) : JsVal :=
  obj [("user_id", params.get "user_id"), ("role_id", params.get "role_id"),
       ("action", params.get "action"), ("status", str "completed")]

/-! ## Test doubles used at concrete inputs -/

/-- A fixed clock reading. -/
def epoch : JsDate := ⟨0, "1970-01-01T00:00:00.000Z"⟩

/-- A text channel whose send answers with message id `M1`. -/
def stubChannel : Channel :=
  { id := "C1", name := "general", type := 0, position := num ⟨"0"⟩
    send := fun _ => .ok ⟨"M1", epoch⟩
    messagesFetch := fun _ => .ok [] }

/-- A role. -/
def stubRole : Role := ⟨"R1"⟩

/-- A member whose role mutations succeed. -/
def stubMember : Member := ⟨"U1", fun _ => .ok (), fun _ => .ok ()⟩

/-- A member whose role mutations are rejected by the platform. -/
def deniedMember : Member :=
  ⟨"U1", fun _ => .error "Missing Permissions", fun _ => .error "Missing Permissions"⟩

/-- A guild in which every member and role lookup resolves. -/
def stubGuild (member : Member) : Guild :=
  { id := "G1", name := "Fresh House", channels := [stubChannel]
    membersFetch := fun _ => .ok (some member)
    rolesFetch := fun _ => .ok (some stubRole) }

/-- A Discord client with the given readiness in which every channel lookup
resolves. -/
def stubDiscord (ready : Bool) (member : Member) : Discord :=
  ⟨ready, some (stubGuild member), fun _ => .ok (some stubChannel), fun e => .ok ⟨e⟩⟩

/-- A ready Discord client in which no channel lookup finds a channel. -/
def noChannelDiscord : Discord :=
  ⟨true, some (stubGuild stubMember), fun _ => .ok none, fun e => .ok ⟨e⟩⟩

/-- A Supabase client whose inserts report no error. -/
def stubSupabase : Supabase := ⟨fun _ _ => .ok none⟩

/-- An environment with both connectors present. -/
def stubEnv (ready : Bool) : Env := ⟨stubDiscord ready stubMember, some stubSupabase, epoch⟩

end FreshHouse

/-! ## Auxiliary lemmas -/

namespace FreshHouse

open JsVal

theorem bearer_data_length : "Bearer ".data.length = 7 := rfl

theorem jsStartsWith_bearer_iff (h : String) :
    jsStartsWith h "Bearer " = true ↔ ∃ rest : String, h = "Bearer " ++ rest := by
  unfold jsStartsWith
  rw [List.isPrefixOf_iff_prefix]
  constructor
  · rintro ⟨t, ht⟩
    refine ⟨⟨t⟩, ?_⟩
    apply String.ext
    rw [String.data_append, ← ht]
  · rintro ⟨rest, rfl⟩
    exact ⟨rest.data, by rw [String.data_append]⟩

theorem jsSubstring_bearer (rest : String) : jsSubstring ("Bearer " ++ rest) 7 = rest := by
  unfold jsSubstring
  apply String.ext
  simp only [String.data_append]
  rw [← bearer_data_length, List.drop_left]

theorem bearer_append_ne_empty (rest : String) : "Bearer " ++ rest ≠ "" := by
  intro h
  have hlen := congrArg String.length h
  rw [String.length_append] at hlen
  have h7 : "Bearer ".length = 7 := rfl
  have h0 : "".length = 0 := rfl
  omega

/-- The middleware on a header that carries the bearer marker. -/
theorem authenticateRequest_bearer (AUTH_TOKEN rest : String) :
    authenticateRequest AUTH_TOKEN (some ("Bearer " ++ rest)) =
      if rest ≠ AUTH_TOKEN then ⟨[⟨401, invalidTokenBody⟩], false⟩ else ⟨[], true⟩ := by
  have h1 : jsStartsWith ("Bearer " ++ rest) "Bearer " = true :=
    (jsStartsWith_bearer_iff _).2 ⟨rest, rfl⟩
  simp only [authenticateRequest, h1, jsSubstring_bearer, bearer_append_ne_empty,
    decide_False, Bool.not_true, Bool.or_self, Bool.false_eq_true, if_false]

/-- The middleware on a header without the bearer marker. -/
theorem authenticateRequest_malformed (AUTH_TOKEN : String) (authHeader : Option String)
    (h : ∀ rest : String, authHeader ≠ some ("Bearer " ++ rest)) :
    authenticateRequest AUTH_TOKEN authHeader = ⟨[⟨401, missingHeaderBody⟩], false⟩ := by
  cases authHeader with
  | none => rfl
  | some hd =>
    have h2 : jsStartsWith hd "Bearer " = false := by
      cases hs : jsStartsWith hd "Bearer " with
      | false => rfl
      | true =>
        obtain ⟨rest, hr⟩ := (jsStartsWith_bearer_iff hd).1 hs
        exact absurd (congrArg some hr) (h rest)
    simp [authenticateRequest, h2]

/-- A value one of whose properties reads as a string is an object. -/
theorem isNullish_of_get_str {v : JsVal} {k t : String} (h : v.get k = str t) :
    v.isNullish = false := by
  cases v <;> first | rfl | simp [JsVal.get] at h

/-- The `try` block on a body whose `tool_name` is a string: the switch
decides. -/
theorem executeTry_str (env : Env) (body : JsVal) (t : String)
    (hb : body.get "tool_name" = str t) :
    executeTry env body =
      match selectHandler (str t) with
      | some h => h.run env (body.get "parameters")
      | none => ⟨[], .error ("Unknown tool: " ++ t)⟩ := by
  simp only [executeTry, destructure, isNullish_of_get_str hb, hb, toStr]
  rfl

/-- The names of the descriptors, spelled out. -/
theorem tools_names :
    tools.map (fun d => d.name) =
      ["send_discord_message", "get_discord_channels", "get_discord_messages",
       "manage_discord_roles", "sync_to_supabase"] := rfl

/-- The switch takes its default branch exactly on the strings outside the
descriptor names. -/
theorem selectHandler_eq_none_iff (t : String) :
    selectHandler (str t) = none ↔ t ∉ tools.map (fun d => d.name) := by
  rw [tools_names]
  simp only [selectHandler, List.mem_cons, List.mem_singleton, List.not_mem_nil, or_false,
    not_or]
  constructor
  · intro h
    by_cases h1 : t = "send_discord_message"
    · simp [h1] at h
    by_cases h2 : t = "get_discord_channels"
    · simp [h2] at h
    by_cases h3 : t = "get_discord_messages"
    · simp [h3] at h
    by_cases h4 : t = "manage_discord_roles"
    · simp [h4] at h
    by_cases h5 : t = "sync_to_supabase"
    · simp [h5] at h
    exact ⟨h1, h2, h3, h4, h5⟩
  · rintro ⟨h1, h2, h3, h4, h5⟩
    simp [h1, h2, h3, h4, h5]

/-- The envelope put around the outcome of the `try` block. -/
theorem execute_eq (env : Env) (body : JsVal) :
    execute env body =
      ⟨(executeTry env body).calls,
       [match (executeTry env body).result with
        | .ok r => successEnvelope r
        | .error m => failureEnvelope m]⟩ := by
  unfold execute
  rcases executeTry env body with ⟨calls, r | m⟩ <;> rfl

/-- A string among the descriptor names is one of the five literals. -/
theorem mem_tools_names {t : String} (ht : t ∈ tools.map (fun d => d.name)) :
    t = "send_discord_message" ∨ t = "get_discord_channels" ∨ t = "get_discord_messages" ∨
      t = "manage_discord_roles" ∨ t = "sync_to_supabase" := by
  rw [tools_names] at ht
  simpa using ht

/-- The handler with a Discord client that is not ready. -/
theorem sendDiscordMessage_not_ready (discord : Discord) (params : JsVal)
    (hr : discord.isReady = false) :
    sendDiscordMessage discord params =
      if params.isNullish then ⟨[], .error (destructureError "channel_id" "params" params)⟩
      else ⟨[.isReady], .error "Discord bot is not connected"⟩ := by
  unfold sendDiscordMessage destructure
  by_cases hn : params.isNullish = true <;> simp [hn, hr]

/-- The handler with a Discord client that is not ready. -/
theorem getDiscordChannels_not_ready (discord : Discord) (params : JsVal)
    (hr : discord.isReady = false) :
    getDiscordChannels discord params =
      ⟨[.isReady], .error "Discord bot is not connected"⟩ := by
  simp [getDiscordChannels, hr]

/-- The handler with a Discord client that is not ready. -/
theorem getDiscordMessages_not_ready (discord : Discord) (params : JsVal)
    (hr : discord.isReady = false) :
    getDiscordMessages discord params =
      if params.isNullish then ⟨[], .error (destructureError "channel_id" "params" params)⟩
      else ⟨[.isReady], .error "Discord bot is not connected"⟩ := by
  unfold getDiscordMessages destructure
  by_cases hn : params.isNullish = true <;> simp [hn, hr]

/-- The handler with a Discord client that is not ready. -/
theorem manageDiscordRoles_not_ready (discord : Discord) (params : JsVal)
    (hr : discord.isReady = false) :
    manageDiscordRoles discord params =
      if params.isNullish then ⟨[], .error (destructureError "user_id" "params" params)⟩
      else ⟨[.isReady], .error "Discord bot is not connected"⟩ := by
  unfold manageDiscordRoles destructure
  by_cases hn : params.isNullish = true <;> simp [hn, hr]

/-- The `try` block on a body that cannot be destructured. -/
theorem executeTry_nullish (env : Env) (body : JsVal) (hb : body.isNullish = true) :
    executeTry env body = ⟨[], .error (destructureError "tool_name" "req.body" body)⟩ := by
  simp [executeTry, destructure, hb]

/-- The `try` block on a body that can be destructured: the log line converts
`tool_name`, then the switch decides. -/
theorem executeTry_body (env : Env) (body : JsVal) (hb : body.isNullish = false) :
    executeTry env body =
      match toStr (body.get "tool_name") with
      | .error e => ⟨[], .error e⟩
      | .ok shown =>
          match selectHandler (body.get "tool_name") with
          | some h => h.run env (body.get "parameters")
          | none => ⟨[], .error ("Unknown tool: " ++ shown)⟩ := by
  simp only [executeTry, destructure, hb, Bool.false_eq_true, if_false]

/-- The switch takes its default branch on every value that is not one of
the descriptor names as a string. -/
theorem selectHandler_eq_none_of_ne (v : JsVal)
    (h : ∀ n ∈ tools.map (fun d => d.name), v ≠ str n) : selectHandler v = none := by
  cases v with
  | str t => exact (selectHandler_eq_none_iff t).2 (fun hm => h t hm rfl)
  | _ => rfl

/-- Once the timer is cleared, no event writes a frame or arms it again. -/
theorem sseRun_cleared (s : Session) (events : List SseEvent) (h : s.heartbeat = false) :
    sseRun s events = ⟨false, s.written⟩ := by
  induction events generalizing s with
  | nil => cases s; simp_all [sseRun]
  | cons e rest ih =>
    have hstep : sseStep s e = ⟨false, s.written⟩ := by
      cases s with
      | mk hb w =>
        have hb0 : hb = false := h
        subst hb0
        cases e <;> rfl
    have := ih (sseStep s e) (by rw [hstep])
    simpa [sseRun, hstep] using this

/-- While the timer is armed, the frames written are one heartbeat per tick
up to the first close. -/
theorem sseRun_armed (s : Session) (events : List SseEvent) (h : s.heartbeat = true) :
    (sseRun s events).written = s.written ++ heartbeatsOf (beforeClose events) := by
  induction events generalizing s with
  | nil => simp [sseRun, heartbeatsOf, beforeClose]
  | cons e rest ih =>
    cases e with
    | tick now ready =>
      have hstep : sseStep s (.tick now ready) =
          ⟨true, s.written ++ [heartbeatFrame now ready]⟩ := by simp [sseStep, h]
      have := ih (sseStep s (.tick now ready)) (by rw [hstep])
      rw [hstep] at this
      simpa [sseRun, hstep, heartbeatsOf, beforeClose, SseEvent.isClose] using this
    | close =>
      have hstep : sseStep s .close = ⟨false, s.written⟩ := rfl
      have := sseRun_cleared (sseStep s .close) rest (by rw [hstep])
      simp only [sseRun, List.foldl_cons] at this ⊢
      rw [this, hstep]
      simp [heartbeatsOf, beforeClose, SseEvent.isClose]

/-- Running two lists of events in a row. -/
theorem sseRun_append (s : Session) (xs ys : List SseEvent) :
    sseRun s (xs ++ ys) = sseRun (sseRun s xs) ys := by
  simp [sseRun, List.foldl_append]

/-- No event before the first close is a close, so each one is a tick with
its heartbeat. -/
theorem heartbeatsOf_beforeClose_length (events : List SseEvent) :
    (heartbeatsOf (beforeClose events)).length = (beforeClose events).length := by
  induction events with
  | nil => rfl
  | cons e rest ih =>
    cases e with
    | tick now ready =>
      simpa [heartbeatsOf, beforeClose, SseEvent.isClose] using ih
    | close => simp [heartbeatsOf, beforeClose, SseEvent.isClose]

/-- The role handler once member and role have resolved: only the branch on
`action` is left. -/
theorem manageDiscordRoles_resolved (discord : Discord) (params : JsVal) (guild : Guild)
    (member : Member) (role : Role)
    (hr : discord.isReady = true) (hn : params.isNullish = false)
    (hg : discord.guildsFirst = some guild)
    (hm : guild.membersFetch (params.get "user_id") = .ok (some member))
    (hro : guild.rolesFetch (params.get "role_id") = .ok (some role)) :
    manageDiscordRoles discord params =
      match params.get "action" with
      | str a =>
          if a = "add" then
            match member.rolesAdd role with
            | .error e => ⟨roleFetches params ++ [.rolesAdd member.id role.id], .error e⟩
            | .ok _ => ⟨roleFetches params ++ [.rolesAdd member.id role.id],
                .ok (rolePayload params)⟩
          else if a = "remove" then
            match member.rolesRemove role with
            | .error e => ⟨roleFetches params ++ [.rolesRemove member.id role.id], .error e⟩
            | .ok _ => ⟨roleFetches params ++ [.rolesRemove member.id role.id],
                .ok (rolePayload params)⟩
          else ⟨roleFetches params, .ok (rolePayload params)⟩
      | _ => ⟨roleFetches params, .ok (rolePayload params)⟩ := by
  simp only [manageDiscordRoles, destructure, hn, hr, hg, hm, hro, Bool.false_eq_true,
    if_false, Bool.not_true]
  rfl

/-! ## Claims -/

/-- C1: the middleware accepts (calls next, sends nothing) exactly when the
header is the string Bearer-space followed by the configured token; a header
that is absent or does not start with Bearer-space gets one 401 whose body is
error Missing or invalid authorization header with expected Bearer <token>,
and no next; a header that starts with Bearer-space and continues with
anything but the token gets one 401 whose body is error Invalid token, and no
next. -/
theorem C1_authenticateRequest (AUTH_TOKEN : String) (authHeader : Option String) :
    (authenticateRequest AUTH_TOKEN authHeader = ⟨[], true⟩ ↔
        authHeader = some ("Bearer " ++ AUTH_TOKEN)) ∧
    ((authenticateRequest AUTH_TOKEN authHeader).nextCalled = true ↔
        authHeader = some ("Bearer " ++ AUTH_TOKEN)) ∧
    ((∀ rest : String, authHeader ≠ some ("Bearer " ++ rest)) →
        authenticateRequest AUTH_TOKEN authHeader =
          ⟨[⟨401, obj [("error", str "Missing or invalid authorization header"),
                       ("expected", str "Bearer <token>")]⟩], false⟩) ∧
    (∀ rest : String, authHeader = some ("Bearer " ++ rest) → rest ≠ AUTH_TOKEN →
        authenticateRequest AUTH_TOKEN authHeader =
          ⟨[⟨401, obj [("error", str "Invalid token")]⟩], false⟩) := by
  have key : (authenticateRequest AUTH_TOKEN authHeader).nextCalled = true ↔
      authHeader = some ("Bearer " ++ AUTH_TOKEN) := by
    constructor
    · intro hacc
      by_cases hb : ∃ rest : String, authHeader = some ("Bearer " ++ rest)
      · obtain ⟨rest, rfl⟩ := hb
        rw [authenticateRequest_bearer] at hacc
        by_cases hr : rest = AUTH_TOKEN
        · rw [hr]
        · simp [hr] at hacc
      · have hm := authenticateRequest_malformed AUTH_TOKEN authHeader
          (fun rest hc => hb ⟨rest, hc⟩)
        rw [hm] at hacc
        simp at hacc
    · rintro rfl
      rw [authenticateRequest_bearer]
      simp
  refine ⟨⟨fun h => key.1 (by rw [h]), ?_⟩, key, authenticateRequest_malformed _ _, ?_⟩
  · rintro rfl
    rw [authenticateRequest_bearer]
    simp
  · rintro rest rfl hne
    rw [authenticateRequest_bearer]
    simp [hne, invalidTokenBody]

/-- C2 as it stands fails: a tool_name that is an object with an own
toString property is none of the five names, yet the error of the response is
the conversion error of the log line, which does not contain Unknown tool. -/
theorem C2_counterexample :
    (∀ n ∈ tools.map (fun d => d.name), obj [("toString", str "x")] ≠ str n) ∧
    execute (stubEnv true) (obj [("tool_name", obj [("toString", str "x")])]) =
      ⟨[], [⟨500, obj [("success", bool false),
                       ("error", str "Cannot convert object to primitive value")]⟩]⟩ ∧
    ¬ ("Unknown tool".data <:+: "Cannot convert object to primitive value".data) :=
  ⟨(fun _ _ h => nomatch h), rfl, by decide⟩

/-- C2 amended: for every tool_name (any value, or absent) that is not one
of the five registered names as a string, and every parameters value, the
execute handler answers with exactly one response, HTTP 500 with success
false, and makes no connector call; the error is Unknown tool, colon, space
and the string conversion of tool_name whenever that conversion succeeds (the
name itself for a string, undefined for an absent one), and the message of
the conversion error when it throws. -/
theorem C2_unknown_tool (env : Env) (body : JsVal)
    (ht : ∀ n ∈ tools.map (fun d => d.name), body.get "tool_name" ≠ str n) :
    (∃ m : String, execute env body =
      ⟨[], [⟨500, obj [("success", bool false), ("error", str m)]⟩]⟩) ∧
    (body.isNullish = false →
      (∀ shown : String, toStr (body.get "tool_name") = .ok shown →
        execute env body =
          ⟨[], [⟨500, obj [("success", bool false),
                           ("error", str ("Unknown tool: " ++ shown))]⟩]⟩) ∧
      (∀ e : String, toStr (body.get "tool_name") = .error e →
        execute env body =
          ⟨[], [⟨500, obj [("success", bool false), ("error", str e)]⟩]⟩) ∧
      (∀ t : String, body.get "tool_name" = str t →
        execute env body =
          ⟨[], [⟨500, obj [("success", bool false),
                           ("error", str ("Unknown tool: " ++ t))]⟩]⟩) ∧
      (body.get "tool_name" = undefined →
        execute env body =
          ⟨[], [⟨500, obj [("success", bool false),
                           ("error", str "Unknown tool: undefined")]⟩]⟩)) ∧
    (∀ AUTH_TOKEN : String,
      postExecute AUTH_TOKEN env (some ("Bearer " ++ AUTH_TOKEN)) body = execute env body) := by
  have hsel := selectHandler_eq_none_of_ne _ ht
  have hok : ∀ shown : String, body.isNullish = false →
      toStr (body.get "tool_name") = .ok shown →
      execute env body =
        ⟨[], [⟨500, obj [("success", bool false),
                         ("error", str ("Unknown tool: " ++ shown))]⟩]⟩ := by
    intro shown hb hs
    rw [execute_eq, executeTry_body env body hb, hs, hsel]
    rfl
  have herr : ∀ e : String, body.isNullish = false →
      toStr (body.get "tool_name") = .error e →
      execute env body =
        ⟨[], [⟨500, obj [("success", bool false), ("error", str e)]⟩]⟩ := by
    intro e hb hs
    rw [execute_eq, executeTry_body env body hb, hs]
    rfl
  refine ⟨?_, fun hb => ⟨fun shown => hok shown hb, fun e => herr e hb, ?_, ?_⟩, ?_⟩
  · by_cases hb : body.isNullish = true
    · refine ⟨destructureError "tool_name" "req.body" body, ?_⟩
      rw [execute_eq, executeTry_nullish env body hb]
      rfl
    · have hb0 : body.isNullish = false := by simpa using hb
      cases hs : toStr (body.get "tool_name") with
      | error e => exact ⟨e, herr e hb0 hs⟩
      | ok shown => exact ⟨_, hok shown hb0 hs⟩
  · intro t htn
    exact hok t hb (by rw [htn]; rfl)
  · intro htn
    exact hok "undefined" hb (by rw [htn]; rfl)
  · intro AUTH_TOKEN
    simp only [postExecute, authenticateRequest_bearer]
    simp

/-- C2 amended, at the name unknown_tool with a parameters field and at a
body with neither field. -/
theorem C2_unknown_tool_witness :
    execute (stubEnv true)
        (obj [("tool_name", str "unknown_tool"), ("parameters", obj [("x", bool true)])]) =
      ⟨[], [⟨500, obj [("success", bool false),
                       ("error", str ("Unknown tool: " ++ "unknown_tool"))]⟩]⟩ ∧
    execute (stubEnv true) (obj []) =
      ⟨[], [⟨500, obj [("success", bool false),
                       ("error", str "Unknown tool: undefined")]⟩]⟩ :=
  ⟨((C2_unknown_tool (stubEnv true)
      (obj [("tool_name", str "unknown_tool"), ("parameters", obj [("x", bool true)])])
      (fun n hn h => by
        have hne : "unknown_tool" ∉ tools.map (fun d => d.name) := by decide
        cases h
        exact hne hn)).2.1 rfl).2.2.1 "unknown_tool" rfl,
   ((C2_unknown_tool (stubEnv true) (obj [])
      (fun _ _ h => by cases h)).2.1 rfl).2.2.2 rfl⟩

/-- C3 as it stands fails: with the Discord client not ready, a body that
names send_discord_message and has no parameters field is answered with the
destructuring error of the handler, not with the not-connected message. -/
theorem C3_counterexample :
    (stubEnv false).discord.isReady = false ∧
    execute (stubEnv false) (obj [("tool_name", str "send_discord_message")]) =
      ⟨[], [failureEnvelope
        "Cannot destructure property 'channel_id' of 'params' as it is undefined."]⟩ ∧
    (execute (stubEnv false) (obj [("tool_name", str "send_discord_message")])).responses ≠
      [failureEnvelope "Discord bot is not connected"] := by
  refine ⟨rfl, rfl, ?_⟩
  rw [show (execute (stubEnv false) (obj [("tool_name", str "send_discord_message")])).responses
      = [failureEnvelope
          "Cannot destructure property 'channel_id' of 'params' as it is undefined."] from rfl]
  simp [failureEnvelope]

/-- C3 amended: with the Discord client not ready, execute with any of the
four chat tools answers, for every parameters value, with exactly one failure
envelope (HTTP 500, success false) and its only connector call, if any, is
the readiness read (no channel fetch, send, member fetch, role fetch or role
mutation); the error text is the not-connected message whenever the
parameters value is neither absent nor null, and for get_discord_channels
always. -/
theorem C3_not_ready (env : Env) (body : JsVal) (t : String)
    (hb : body.get "tool_name" = str t)
    (ht : t ∈ ["send_discord_message", "get_discord_channels", "get_discord_messages",
               "manage_discord_roles"])
    (hr : env.discord.isReady = false) :
    (∃ m : String, (execute env body).responses =
        [⟨500, obj [("success", bool false), ("error", str m)]⟩]) ∧
    ((execute env body).calls = [] ∨ (execute env body).calls = [.isReady]) ∧
    ((body.get "parameters").isNullish = false ∨ t = "get_discord_channels" →
      execute env body =
        ⟨[.isReady], [⟨500, obj [("success", bool false),
                                ("error", str "Discord bot is not connected")]⟩]⟩) := by
  simp only [List.mem_cons, List.mem_singleton, List.not_mem_nil, or_false] at ht
  rw [execute_eq, executeTry_str env body t hb]
  rcases ht with rfl | rfl | rfl | rfl
  · have hs : selectHandler (str "send_discord_message") = some .sendDiscordMessage := rfl
    simp only [hs, Handler.run, sendDiscordMessage_not_ready _ _ hr]
    by_cases hn : (body.get "parameters").isNullish = true
    · simp [hn, failureEnvelope]
    · simp [hn, failureEnvelope]
  · have hs : selectHandler (str "get_discord_channels") = some .getDiscordChannels := rfl
    simp [hs, Handler.run, getDiscordChannels_not_ready _ _ hr, failureEnvelope]
  · have hs : selectHandler (str "get_discord_messages") = some .getDiscordMessages := rfl
    simp only [hs, Handler.run, getDiscordMessages_not_ready _ _ hr]
    by_cases hn : (body.get "parameters").isNullish = true
    · simp [hn, failureEnvelope]
    · simp [hn, failureEnvelope]
  · have hs : selectHandler (str "manage_discord_roles") = some .manageDiscordRoles := rfl
    simp only [hs, Handler.run, manageDiscordRoles_not_ready _ _ hr]
    by_cases hn : (body.get "parameters").isNullish = true
    · simp [hn, failureEnvelope]
    · simp [hn, failureEnvelope]

/-- C3 amended, at a manage_discord_roles request with an empty parameters
object and a client that is not ready. -/
theorem C3_not_ready_witness :
    execute (stubEnv false)
        (obj [("tool_name", str "manage_discord_roles"), ("parameters", obj [])]) =
      ⟨[.isReady], [⟨500, obj [("success", bool false),
                              ("error", str "Discord bot is not connected")]⟩]⟩ :=
  (C3_not_ready (stubEnv false)
      (obj [("tool_name", str "manage_discord_roles"), ("parameters", obj [])])
      "manage_discord_roles" rfl (by decide) rfl).2.2 (Or.inl rfl)

/-- C4: the code at two requests that lack every key their descriptor lists
as required.  Neither is rejected before a connector call: sync_to_supabase
with an empty parameters object inserts into the table named from two
undefined values and answers success; send_discord_message with an empty
parameters object fetches the channel undefined, sends undefined and answers
success. -/
theorem C4_missing_keys_accepted :
    requiredKeys "sync_to_supabase" = ["data_type", "data", "client_id"] ∧
    lacksKey (obj []) (requiredKeys "sync_to_supabase") = true ∧
    execute (stubEnv true)
        (obj [("tool_name", str "sync_to_supabase"), ("parameters", obj [])]) =
      ⟨[.supabaseInsert "undefined_discord_undefined"
          ⟨undefined, "1970-01-01T00:00:00.000Z"⟩],
       [⟨200, obj [("success", bool true),
                   ("result", obj [("synced", bool true),
                                   ("table", str "undefined_discord_undefined"),
                                   ("client_id", undefined),
                                   ("data_type", undefined)])]⟩]⟩ ∧
    requiredKeys "send_discord_message" = ["channel_id", "message"] ∧
    lacksKey (obj []) (requiredKeys "send_discord_message") = true ∧
    execute (stubEnv true)
        (obj [("tool_name", str "send_discord_message"), ("parameters", obj [])]) =
      ⟨[.isReady, .channelsFetch undefined, .channelSend "C1" (.text undefined)],
       [⟨200, obj [("success", bool true),
                   ("result", obj [("message_id", str "M1"),
                                   ("channel_id", undefined),
                                   ("content", undefined),
                                   ("timestamp", str "1970-01-01T00:00:00.000Z"),
                                   ("status", str "sent")])]⟩]⟩ :=
  ⟨rfl, rfl, rfl, rfl, rfl, rfl⟩

/-- C5: for every registered tool name and every parameters value, the
execute handler sends exactly one response; the handler selected for the name
is called with the parameters value of the body as it is; when it returns a
payload the response is HTTP 200 with success true and that payload as
result, when it throws an error the response is HTTP 500 with success false
and the message of the error; the connector calls of the request are those of
the handler. -/
theorem C5_envelope (env : Env) (body : JsVal) (t : String)
    (hb : body.get "tool_name" = str t)
    (ht : t ∈ tools.map (fun d => d.name)) :
    (execute env body).responses.length = 1 ∧
    ∃ o : Outcome,
      (t = "send_discord_message" →
        o = sendDiscordMessage env.discord (body.get "parameters")) ∧
      (t = "get_discord_channels" →
        o = getDiscordChannels env.discord (body.get "parameters")) ∧
      (t = "get_discord_messages" →
        o = getDiscordMessages env.discord (body.get "parameters")) ∧
      (t = "manage_discord_roles" →
        o = manageDiscordRoles env.discord (body.get "parameters")) ∧
      (t = "sync_to_supabase" →
        o = syncToSupabase env.supabase env.now (body.get "parameters")) ∧
      (∀ r : JsVal, o.result = .ok r →
        execute env body =
          ⟨o.calls, [⟨200, obj [("success", bool true), ("result", r)]⟩]⟩) ∧
      (∀ m : String, o.result = .error m →
        execute env body =
          ⟨o.calls, [⟨500, obj [("success", bool false), ("error", str m)]⟩]⟩) := by
  have hex := execute_eq env body
  refine ⟨by rw [hex]; rfl, ?_⟩
  have htry := executeTry_str env body t hb
  have env_of : ∀ o : Outcome, executeTry env body = o →
      (∀ r : JsVal, o.result = .ok r →
        execute env body =
          ⟨o.calls, [⟨200, obj [("success", bool true), ("result", r)]⟩]⟩) ∧
      (∀ m : String, o.result = .error m →
        execute env body =
          ⟨o.calls, [⟨500, obj [("success", bool false), ("error", str m)]⟩]⟩) := by
    intro o ho
    rw [hex, ho]
    exact ⟨fun r hr => by rw [hr]; rfl, fun m hm => by rw [hm]; rfl⟩
  rcases mem_tools_names ht with rfl | rfl | rfl | rfl | rfl
  · refine ⟨sendDiscordMessage env.discord (body.get "parameters"),
      fun _ => rfl, ?_, ?_, ?_, ?_, env_of _ htry⟩ <;> intro h <;> exact absurd h (by decide)
  · refine ⟨getDiscordChannels env.discord (body.get "parameters"),
      ?_, fun _ => rfl, ?_, ?_, ?_, env_of _ htry⟩ <;> intro h <;> exact absurd h (by decide)
  · refine ⟨getDiscordMessages env.discord (body.get "parameters"),
      ?_, ?_, fun _ => rfl, ?_, ?_, env_of _ htry⟩ <;> intro h <;> exact absurd h (by decide)
  · refine ⟨manageDiscordRoles env.discord (body.get "parameters"),
      ?_, ?_, ?_, fun _ => rfl, ?_, env_of _ htry⟩ <;> intro h <;> exact absurd h (by decide)
  · refine ⟨syncToSupabase env.supabase env.now (body.get "parameters"),
      ?_, ?_, ?_, ?_, fun _ => rfl, env_of _ htry⟩ <;> intro h <;> exact absurd h (by decide)

/-- C5 at a get_discord_channels request against a client that is not ready:
one response. -/
theorem C5_envelope_witness :
    (execute (stubEnv false)
        (obj [("tool_name", str "get_discord_channels")])).responses.length = 1 :=
  (C5_envelope (stubEnv false) (obj [("tool_name", str "get_discord_channels")])
      "get_discord_channels" rfl (by decide)).1

/-- C10: the names in the tools_available frame are, in the same order, the
name fields of the descriptors of GET /tools; they are pairwise distinct; and
the switch of the execute handler selects a handler for a tool_name exactly
when it is one of these names as a string, in which case the request runs
that handler, while every other string ends in the unknown-tool error. -/
theorem C10_listings_agree :
    sseToolNames = tools.map (fun d => d.name) ∧
    (∀ now : JsDate, (toolsFrame now).get "tools" = arr ((tools.map (fun d => d.name)).map str)) ∧
    sseToolNames.Nodup ∧
    (∀ tool_name : JsVal,
      (selectHandler tool_name).isSome = true ↔ ∃ n ∈ sseToolNames, tool_name = str n) ∧
    (∀ (env : Env) (body : JsVal) (t : String), body.get "tool_name" = str t →
      (t ∈ sseToolNames ↔
        ∃ h : Handler, selectHandler (str t) = some h ∧
          executeTry env body = h.run env (body.get "parameters")) ∧
      (t ∉ sseToolNames ↔
        selectHandler (str t) = none ∧
          executeTry env body = ⟨[], .error ("Unknown tool: " ++ t)⟩)) := by
  have hnames : sseToolNames = tools.map (fun d => d.name) := rfl
  have hsel : ∀ t : String, t ∈ sseToolNames ↔ ∃ h : Handler, selectHandler (str t) = some h := by
    intro t
    rw [hnames]
    constructor
    · intro ht
      cases hs : selectHandler (str t) with
      | none => exact absurd ht ((selectHandler_eq_none_iff t).1 hs)
      | some h => exact ⟨h, rfl⟩
    · rintro ⟨h, hh⟩
      by_contra hc
      rw [(selectHandler_eq_none_iff t).2 hc] at hh
      cases hh
  refine ⟨hnames, fun now => rfl, by decide, ?_, ?_⟩
  · intro tool_name
    constructor
    · intro hs
      cases tool_name with
      | str t =>
        obtain ⟨h, hh⟩ := Option.isSome_iff_exists.1 hs
        exact ⟨t, (hsel t).2 ⟨h, hh⟩, rfl⟩
      | _ => simp [selectHandler] at hs
    · rintro ⟨n, hn, rfl⟩
      obtain ⟨h, hh⟩ := (hsel n).1 hn
      rw [hh]
      rfl
  · intro env body t hb
    have htry := executeTry_str env body t hb
    constructor
    · constructor
      · intro ht
        obtain ⟨h, hh⟩ := (hsel t).1 ht
        refine ⟨h, hh, ?_⟩
        rw [htry, hh]
      · rintro ⟨h, hh, _⟩
        exact (hsel t).2 ⟨h, hh⟩
    · constructor
      · intro ht
        have hn : selectHandler (str t) = none := by
          rw [hnames] at ht
          exact (selectHandler_eq_none_iff t).2 ht
        refine ⟨hn, ?_⟩
        rw [htry, hn]
      · rintro ⟨hn, _⟩
        rw [hnames]
        exact (selectHandler_eq_none_iff t).1 hn

/-- C8: a session opened behind a valid bearer header writes exactly the
connection frame, then the tools_available frame, then one heartbeat frame per
tick that comes before the first close, each heartbeat carrying connected or
disconnected according to the readiness at its tick; events after a close
write nothing, and a second close changes nothing. -/
theorem C8_session_frames (t1 t2 : JsDate) (events : List SseEvent) :
    (∀ AUTH_TOKEN : String,
      getSse AUTH_TOKEN (some ("Bearer " ++ AUTH_TOKEN)) t1 t2 events =
        ([], some (sseRun (sseOpen t1 t2) events))) ∧
    (sseRun (sseOpen t1 t2) events).written =
      [connectionFrame t1, toolsFrame t2] ++ heartbeatsOf (beforeClose events) ∧
    (heartbeatsOf (beforeClose events)).length = (beforeClose events).length ∧
    (connectionFrame t1).get "type" = str "connection" ∧
    (toolsFrame t2).get "type" = str "tools_available" ∧
    (∀ (now : JsDate) (ready : Bool),
      (heartbeatFrame now ready).get "type" = str "heartbeat" ∧
      (heartbeatFrame now ready).get "discord_status" =
        str (if ready then "connected" else "disconnected")) ∧
    (∀ later : List SseEvent,
      (sseRun (sseOpen t1 t2) (events ++ SseEvent.close :: later)).written =
        (sseRun (sseOpen t1 t2) events).written) ∧
    sseRun (sseOpen t1 t2) (events ++ [SseEvent.close, SseEvent.close]) =
      sseRun (sseOpen t1 t2) (events ++ [SseEvent.close]) := by
  refine ⟨fun AUTH_TOKEN => ?_, sseRun_armed (sseOpen t1 t2) events rfl,
    heartbeatsOf_beforeClose_length events, rfl, rfl, ?_, fun later => ?_, ?_⟩
  · simp [getSse, authenticateRequest_bearer]
  · intro now ready
    cases ready <;> exact ⟨rfl, rfl⟩
  · rw [sseRun_append]
    have h : sseRun (sseRun (sseOpen t1 t2) events) (SseEvent.close :: later) =
        sseRun (sseStep (sseRun (sseOpen t1 t2) events) .close) later := rfl
    rw [h, sseRun_cleared _ later rfl]
    rfl
  · rw [sseRun_append, sseRun_append]
    rfl

/-- C6 as it stands fails: with a configured client whose insert reports no
error for any table and row, a client_id that is an object with an own
toString property makes the template literal throw; nothing is inserted and
nothing is returned. -/
theorem C6_counterexample :
    (∀ (table : String) (row : SyncRow), stubSupabase.insert table row = .ok none) ∧
    syncToSupabase (some stubSupabase) epoch
        (obj [("data_type", str "user"), ("data", obj []),
              ("client_id", obj [("toString", str "x")])]) =
      ⟨[], .error "Cannot convert object to primitive value"⟩ :=
  ⟨(fun _ _ => rfl), rfl⟩

/-- C6 amended: for every parameters value that is neither absent nor null,
and every client_id and data_type in it whose string conversions succeed
(every string, number and absent value among them), with a configured client
whose insert reports no error, the sync handler makes one insert, into the
table named by the conversion of client_id, then _discord_, then the
conversion of data_type, with the row made of data and the clock reading, and
returns synced true, that table name, and client_id and data_type as read;
the name is computed from the two values alone (acme and user give
acme_discord_user).  Without a configured client the handler throws the
not-configured error and makes no insert, for every parameters value. -/
theorem C6_sync_table (now : JsDate) (params : JsVal) :
    (∀ (client : Supabase) (c d : String),
      params.isNullish = false →
      toStr (params.get "client_id") = .ok c → toStr (params.get "data_type") = .ok d →
      client.insert (c ++ "_discord_" ++ d) ⟨params.get "data", now.iso⟩ = .ok none →
      syncToSupabase (some client) now params =
        ⟨[.supabaseInsert (c ++ "_discord_" ++ d) ⟨params.get "data", now.iso⟩],
         .ok (obj [("synced", bool true), ("table", str (c ++ "_discord_" ++ d)),
                   ("client_id", params.get "client_id"),
                   ("data_type", params.get "data_type")])⟩) ∧
    (∀ (client : Supabase) (c d : String),
      params.get "client_id" = str c → params.get "data_type" = str d →
      client.insert (c ++ "_discord_" ++ d) ⟨params.get "data", now.iso⟩ = .ok none →
      syncToSupabase (some client) now params =
        ⟨[.supabaseInsert (c ++ "_discord_" ++ d) ⟨params.get "data", now.iso⟩],
         .ok (obj [("synced", bool true), ("table", str (c ++ "_discord_" ++ d)),
                   ("client_id", str c), ("data_type", str d)])⟩) ∧
    (∀ s : String, toStr (str s) = .ok s) ∧
    (∀ n : JsNum, toStr (num n) = .ok n.shown) ∧
    toStr undefined = .ok "undefined" ∧
    tableName (str "acme") (str "user") = .ok "acme_discord_user" ∧
    syncToSupabase none now params = ⟨[], .error "Supabase not configured"⟩ := by
  have gen : ∀ (client : Supabase) (c d : String),
      params.isNullish = false →
      toStr (params.get "client_id") = .ok c → toStr (params.get "data_type") = .ok d →
      client.insert (c ++ "_discord_" ++ d) ⟨params.get "data", now.iso⟩ = .ok none →
      syncToSupabase (some client) now params =
        ⟨[.supabaseInsert (c ++ "_discord_" ++ d) ⟨params.get "data", now.iso⟩],
         .ok (obj [("synced", bool true), ("table", str (c ++ "_discord_" ++ d)),
                   ("client_id", params.get "client_id"),
                   ("data_type", params.get "data_type")])⟩ := by
    intro client c d hn hc hd hins
    have ht : tableName (params.get "client_id") (params.get "data_type") =
        .ok (c ++ "_discord_" ++ d) := by
      simp only [tableName, hc, hd]
    simp only [syncToSupabase, destructure, hn, ht, syncRow, hins, Bool.false_eq_true,
      if_false]
  refine ⟨gen, fun client c d hc hd hins => ?_, fun _ => rfl, fun _ => rfl, rfl, rfl, rfl⟩
  have h := gen client c d (isNullish_of_get_str hc) (by rw [hc]; rfl) (by rw [hd]; rfl) hins
  rw [h, hc, hd]

/-- C6 amended, at client_id acme and data_type user. -/
theorem C6_sync_table_witness :
    syncToSupabase (some stubSupabase) epoch
        (obj [("data_type", str "user"), ("data", obj [("id", str "42")]),
              ("client_id", str "acme")]) =
      ⟨[.supabaseInsert ("acme" ++ "_discord_" ++ "user")
          ⟨obj [("id", str "42")], "1970-01-01T00:00:00.000Z"⟩],
       .ok (obj [("synced", bool true), ("table", str ("acme" ++ "_discord_" ++ "user")),
                 ("client_id", str "acme"), ("data_type", str "user")])⟩ :=
  (C6_sync_table epoch
      (obj [("data_type", str "user"), ("data", obj [("id", str "42")]),
            ("client_id", str "acme")])).2.1 stubSupabase "acme" "user" rfl rfl rfl

/-- C7 as it stands fails: with a ready client whose channel fetch yields no
channel, a channel_id that is an object with an own toString property makes
the error message throw its conversion error; the handler fails with that
message, which does not start with Channel. -/
theorem C7_counterexample :
    noChannelDiscord.isReady = true ∧
    (∀ v : JsVal, noChannelDiscord.channelsFetch v = .ok none) ∧
    sendDiscordMessage noChannelDiscord
        (obj [("channel_id", obj [("toString", str "x")]), ("message", str "hi")]) =
      ⟨[.isReady, .channelsFetch (obj [("toString", str "x")])],
       .error "Cannot convert object to primitive value"⟩ ∧
    ¬ ("Channel ".data <+: "Cannot convert object to primitive value".data) :=
  ⟨rfl, (fun _ => rfl), rfl, by decide⟩

/-- C7 amended: with a ready client, a parameters value without an embed, a
channel fetch that yields a channel and a send that yields a message, the
handler calls send once, with the message alone, and returns message_id,
channel_id, content, the ISO rendering of the creation time and status sent.
When the fetch yields no channel the handler sends nothing and throws, for
every channel_id; the message is Channel, the string conversion of
channel_id, not found whenever that conversion succeeds (the channel_id
itself for a string), and the conversion error when it throws. -/
theorem C7_send_message (discord : Discord) (params : JsVal)
    (hr : discord.isReady = true) :
    (∀ (channel : Channel) (sent : SentMessage),
      params.isNullish = false → (params.get "embed").truthy = false →
      discord.channelsFetch (params.get "channel_id") = .ok (some channel) →
      channel.send (.text (params.get "message")) = .ok sent →
      sendDiscordMessage discord params =
        ⟨[.isReady, .channelsFetch (params.get "channel_id"),
          .channelSend channel.id (.text (params.get "message"))],
         .ok (obj [("message_id", str sent.id),
                   ("channel_id", params.get "channel_id"),
                   ("content", params.get "message"),
                   ("timestamp", str sent.createdAt.iso),
                   ("status", str "sent")])⟩ ∧
      (sendDiscordMessage discord params).calls.countP Call.isSend = 1) ∧
    (params.isNullish = false →
      discord.channelsFetch (params.get "channel_id") = .ok none →
      (sendDiscordMessage discord params).calls =
        [.isReady, .channelsFetch (params.get "channel_id")] ∧
      (sendDiscordMessage discord params).calls.countP Call.isSend = 0 ∧
      (∃ m : String, (sendDiscordMessage discord params).result = .error m) ∧
      (∀ c : String, toStr (params.get "channel_id") = .ok c →
        (sendDiscordMessage discord params).result =
          .error ("Channel " ++ c ++ " not found")) ∧
      (∀ e : String, toStr (params.get "channel_id") = .error e →
        (sendDiscordMessage discord params).result = .error e)) ∧
    (∀ c : String, params.get "channel_id" = str c →
      discord.channelsFetch (str c) = .ok none →
      sendDiscordMessage discord params =
        ⟨[.isReady, .channelsFetch (str c)], .error ("Channel " ++ c ++ " not found")⟩ ∧
      (sendDiscordMessage discord params).calls.countP Call.isSend = 0) := by
  have none_eq : params.isNullish = false →
      discord.channelsFetch (params.get "channel_id") = .ok none →
      sendDiscordMessage discord params =
        match toStr (params.get "channel_id") with
        | .error e => ⟨[.isReady, .channelsFetch (params.get "channel_id")], .error e⟩
        | .ok c => ⟨[.isReady, .channelsFetch (params.get "channel_id")],
            .error ("Channel " ++ c ++ " not found")⟩ := by
    intro hn hf
    simp only [sendDiscordMessage, destructure, hn, hr, hf, Bool.false_eq_true, if_false,
      Bool.not_true]
  refine ⟨?_, ?_, ?_⟩
  · intro channel sent hn he hf hs
    have heq : sendDiscordMessage discord params =
        ⟨[.isReady, .channelsFetch (params.get "channel_id"),
          .channelSend channel.id (.text (params.get "message"))],
         .ok (obj [("message_id", str sent.id),
                   ("channel_id", params.get "channel_id"),
                   ("content", params.get "message"),
                   ("timestamp", str sent.createdAt.iso),
                   ("status", str "sent")])⟩ := by
      simp only [sendDiscordMessage, destructure, hn, hr, hf, he, hs, sentPayload,
        Bool.false_eq_true, if_false, Bool.not_true]
    refine ⟨heq, ?_⟩
    rw [heq]
    rfl
  · intro hn hf
    rw [none_eq hn hf]
    cases hs : toStr (params.get "channel_id") with
    | error e =>
      refine ⟨rfl, rfl, ⟨e, rfl⟩, ?_, ?_⟩
      · intro c hc
        cases hc
      · intro e2 he2
        cases he2
        rfl
    | ok c =>
      refine ⟨rfl, rfl, ⟨_, rfl⟩, ?_, ?_⟩
      · intro c2 hc2
        cases hc2
        rfl
      · intro e he
        cases he
  · intro c hc hf
    have hn := isNullish_of_get_str hc
    have heq : sendDiscordMessage discord params =
        ⟨[.isReady, .channelsFetch (str c)], .error ("Channel " ++ c ++ " not found")⟩ := by
      rw [none_eq hn (by rw [hc]; exact hf), hc]
      rfl
    refine ⟨heq, ?_⟩
    rw [heq]
    rfl

/-- C7 amended, at channel_id C1, message hi and a send that answers with id
M1. -/
theorem C7_send_message_witness :
    sendDiscordMessage (stubDiscord true stubMember)
        (obj [("channel_id", str "C1"), ("message", str "hi")]) =
      ⟨[.isReady, .channelsFetch (str "C1"), .channelSend "C1" (.text (str "hi"))],
       .ok (obj [("message_id", str "M1"), ("channel_id", str "C1"),
                 ("content", str "hi"), ("timestamp", str "1970-01-01T00:00:00.000Z"),
                 ("status", str "sent")])⟩ :=
  ((C7_send_message (stubDiscord true stubMember)
      (obj [("channel_id", str "C1"), ("message", str "hi")]) rfl).1
      stubChannel ⟨"M1", epoch⟩ rfl rfl rfl rfl).1

/-- C9 as it stands fails: with a ready client and a member and a role that
both resolve, action add calls role-add once, but when the platform rejects
that call the handler throws and returns no payload. -/
theorem C9_counterexample :
    (stubDiscord true deniedMember).isReady = true ∧
    (stubGuild deniedMember).membersFetch (str "U1") = .ok (some deniedMember) ∧
    (stubGuild deniedMember).rolesFetch (str "R1") = .ok (some stubRole) ∧
    manageDiscordRoles (stubDiscord true deniedMember)
        (obj [("user_id", str "U1"), ("role_id", str "R1"), ("action", str "add")]) =
      ⟨[.isReady, .guildsFirst, .membersFetch (str "U1"), .rolesFetch (str "R1"),
        .rolesAdd "U1" "R1"],
       .error "Missing Permissions"⟩ :=
  ⟨rfl, rfl, rfl, rfl⟩

/-- C9 amended: with a ready client in whose server the member and the role
both resolve, the handler calls role-add exactly once and role-remove never
when action is add, role-remove exactly once and role-add never when action
is remove, and neither for any other action; it returns user_id, role_id,
action and status completed whenever the role call it makes, if any, is not
rejected, so for every action other than add and remove it returns that
payload having changed nothing. -/
theorem C9_manage_roles (discord : Discord) (params : JsVal) (guild : Guild)
    (member : Member) (role : Role)
    (hr : discord.isReady = true) (hn : params.isNullish = false)
    (hg : discord.guildsFirst = some guild)
    (hm : guild.membersFetch (params.get "user_id") = .ok (some member))
    (hro : guild.rolesFetch (params.get "role_id") = .ok (some role)) :
    (params.get "action" = str "add" →
      (manageDiscordRoles discord params).calls.countP Call.isRoleAdd = 1 ∧
      (manageDiscordRoles discord params).calls.countP Call.isRoleRemove = 0 ∧
      (member.rolesAdd role = .ok () →
        (manageDiscordRoles discord params).result =
          .ok (obj [("user_id", params.get "user_id"), ("role_id", params.get "role_id"),
                    ("action", str "add"), ("status", str "completed")]))) ∧
    (params.get "action" = str "remove" →
      (manageDiscordRoles discord params).calls.countP Call.isRoleRemove = 1 ∧
      (manageDiscordRoles discord params).calls.countP Call.isRoleAdd = 0 ∧
      (member.rolesRemove role = .ok () →
        (manageDiscordRoles discord params).result =
          .ok (obj [("user_id", params.get "user_id"), ("role_id", params.get "role_id"),
                    ("action", str "remove"), ("status", str "completed")]))) ∧
    (params.get "action" ≠ str "add" → params.get "action" ≠ str "remove" →
      (manageDiscordRoles discord params).calls.countP Call.isRoleAdd = 0 ∧
      (manageDiscordRoles discord params).calls.countP Call.isRoleRemove = 0 ∧
      (manageDiscordRoles discord params).result =
        .ok (obj [("user_id", params.get "user_id"), ("role_id", params.get "role_id"),
                  ("action", params.get "action"), ("status", str "completed")])) := by
  rw [manageDiscordRoles_resolved discord params guild member role hr hn hg hm hro]
  refine ⟨fun ha => ?_, fun ha => ?_, fun hna hnr => ?_⟩
  · rw [ha]
    simp only [if_true]
    cases hadd : member.rolesAdd role with
    | error e => exact ⟨rfl, rfl, fun h => by cases h⟩
    | ok u => exact ⟨rfl, rfl, fun _ => by simp [rolePayload, ha]⟩
  · rw [ha]
    have hne : ¬ ("remove" = "add") := by decide
    simp only [hne, if_false, if_true]
    cases hrem : member.rolesRemove role with
    | error e => exact ⟨rfl, rfl, fun h => by cases h⟩
    | ok u => exact ⟨rfl, rfl, fun _ => by simp [rolePayload, ha]⟩
  · cases hact : params.get "action" with
    | str a =>
      have h1 : ¬ a = "add" := fun h => hna (by rw [hact, h])
      have h2 : ¬ a = "remove" := fun h => hnr (by rw [hact, h])
      simp only [h1, h2, if_false]
      exact ⟨rfl, rfl, by simp [rolePayload, hact]⟩
    | _ => exact ⟨rfl, rfl, by simp [rolePayload, hact]⟩

/-- C9 amended, at action promote: neither role call is made and the payload
with status completed is returned. -/
theorem C9_manage_roles_witness :
    (manageDiscordRoles (stubDiscord true stubMember)
        (obj [("user_id", str "U1"), ("role_id", str "R1"),
              ("action", str "promote")])).calls.countP Call.isRoleAdd = 0 ∧
    (manageDiscordRoles (stubDiscord true stubMember)
        (obj [("user_id", str "U1"), ("role_id", str "R1"),
              ("action", str "promote")])).calls.countP Call.isRoleRemove = 0 ∧
    (manageDiscordRoles (stubDiscord true stubMember)
        (obj [("user_id", str "U1"), ("role_id", str "R1"),
              ("action", str "promote")])).result =
      .ok (obj [("user_id", str "U1"), ("role_id", str "R1"),
                ("action", str "promote"), ("status", str "completed")]) :=
  (C9_manage_roles (stubDiscord true stubMember)
      (obj [("user_id", str "U1"), ("role_id", str "R1"), ("action", str "promote")])
      (stubGuild stubMember) stubMember stubRole rfl rfl rfl rfl rfl).2.2
    (by simp [JsVal.get, JsVal.lookup]) (by simp [JsVal.get, JsVal.lookup])

/-- C1 at the token s3cret: the exact header is accepted, a wrong token and
an absent header are not. -/
theorem C1_authenticateRequest_witness :
    (authenticateRequest "s3cret" (some ("Bearer " ++ "s3cret"))).nextCalled = true ∧
    authenticateRequest "s3cret" (some ("Bearer " ++ "other")) =
      ⟨[⟨401, obj [("error", str "Invalid token")]⟩], false⟩ ∧
    authenticateRequest "s3cret" none =
      ⟨[⟨401, obj [("error", str "Missing or invalid authorization header"),
                   ("expected", str "Bearer <token>")]⟩], false⟩ :=
  ⟨(C1_authenticateRequest "s3cret" (some ("Bearer " ++ "s3cret"))).2.1.2 rfl,
   (C1_authenticateRequest "s3cret" (some ("Bearer " ++ "other"))).2.2.2 "other" rfl
     (by decide),
   (C1_authenticateRequest "s3cret" none).2.2.1 (fun _ h => by cases h)⟩

/-- C8 at three ticks with a readiness flip, a close, and a late tick: three
heartbeats, the flip shown in the third, nothing after the close. -/
theorem C8_session_frames_witness :
    (sseRun (sseOpen epoch epoch)
        [.tick epoch true, .tick epoch true, .tick epoch false, .close,
         .tick epoch true]).written =
      [connectionFrame epoch, toolsFrame epoch, heartbeatFrame epoch true,
       heartbeatFrame epoch true, heartbeatFrame epoch false] :=
  (C8_session_frames epoch epoch
    [.tick epoch true, .tick epoch true, .tick epoch false, .close, .tick epoch true]).2.1

/-- C10 at the name sync_to_supabase: the switch selects a handler. -/
theorem C10_listings_agree_witness :
    (selectHandler (str "sync_to_supabase")).isSome = true :=
  (C10_listings_agree.2.2.2.1 (str "sync_to_supabase")).2
    ⟨"sync_to_supabase", by decide, rfl⟩

end FreshHouse
